import Mathlib

/-!
Verification development for the AnesysIQ clinical decision-support core
(`process_data/views.py`).

Embedding conventions:
* Python numeric literals (floats) are modelled as exact rationals (`ℚ`);
  IEEE-754 rounding is not modelled.  The Hill dose-response model uses real
  powers (`Real.rpow`) because the Hill coefficients are non-integral.
* The source presents some numbers through `round(x, 1)` when building the
  returned dictionaries; that display rounding is presentation, and the
  embedded results carry the exact (pre-rounding) values.
* Free-text fields that no computation ever reads again (magnitude blurbs,
  audit notes, ASA reason sentences, interpolated values inside validation
  messages) are elided or fixed; every string that is compared, looked up,
  or collected into the evidence summary is embedded verbatim.
* Python `dict`s used as ordered agent maps are embedded as association
  lists in insertion order, matching CPython's order-preserving dicts.
  Python's `max(keys, key=...)` returns the first maximiser; it is embedded
  by `pyMaxBy` below.
-/

/-- Patient data structure (`PatientData` dataclass in the source). -/
structure PatientData where
  age : Int
  weight_kg : ℚ
  height_cm : ℚ
  gender : String
  asa_class : Int
  cardiovascular_disease : Bool
  heart_failure : Bool
  reactive_airway : Bool
  copd : Bool
  diabetes : Bool
  hypertension : Bool
  smoking_status : String
  alcohol_use : String
  ryr1_variant : String
  cyp2b6 : String
  ugt1a9 : String
  cyp3a4 : String
  cyp2c9 : String
  gabra1 : String
  comt : String
  oprm1 : String
  cacna1c : String
  procedure_duration_min : Int
  neuromonitoring : Bool
  deriving Repr, DecidableEq

/-- `PatientData.validate`: list of error messages, empty iff the patient is
valid.  The interpolated field values inside the messages are elided (no
computation reads the message text; only emptiness matters downstream). -/
def PatientData.validate (p : PatientData) : List String :=
  (if 18 ≤ p.age ∧ p.age ≤ 95 then [] else ["Age out of valid range (18-95 years)"])
  ++ (if 30 ≤ p.weight_kg ∧ p.weight_kg ≤ 220 then [] else ["Weight out of valid range (30-220 kg)"])
  ++ (if 120 ≤ p.height_cm ∧ p.height_cm ≤ 220 then [] else ["Height out of valid range (120-220 cm)"])
  ++ (if p.asa_class ∈ ([1, 2, 3, 4, 5] : List Int) then [] else ["ASA class invalid"])
  ++ (if p.cyp2b6 ∈ ["PM", "IM", "NM", "RM"] then [] else ["CYP2B6 status not valid"])
  ++ (if p.ugt1a9 ∈ ["decreased", "normal", "increased"] then [] else ["UGT1A9 status not valid"])
  ++ (if p.cyp3a4 ∈ ["PM", "IM", "NM", "RM"] then [] else ["CYP3A4 status not valid"])
  ++ (if p.cyp2c9 ∈ ["PM", "IM", "NM", "RM"] then [] else ["CYP2C9 status not valid"])
  ++ (if p.ryr1_variant ∈ ["Normal", "Variant"] then [] else ["RYR1 status must be 'Normal' or 'Variant'"])
  ++ (if p.smoking_status ∈ ["never", "former", "current"] then [] else ["Smoking status not valid"])
  ++ (if p.alcohol_use ∈ ["none", "social", "heavy"] then [] else ["Alcohol use not valid"])
  ++ (if p.gabra1 ∈ ["rs4263535:G/G", "rs4263535:A/G", "rs4263535:A/A"] then [] else ["GABRA1 variant not valid"])
  ++ (if p.comt ∈ ["Val158Met:Met/Met", "Val158Met:Val/Met", "Val158Met:Val/Val"] then [] else ["COMT variant not valid"])
  ++ (if p.oprm1 ∈ ["A118G:G/G", "A118G:A/G", "A118G:A/A"] then [] else ["OPRM1 variant not valid"])
  ++ (if p.cacna1c ∈ ["rs1006737:A/A", "rs1006737:A/G", "rs1006737:G/G"] then [] else ["CACNA1C variant not valid"])

/-- Structural model of Python's `str.lower()` (all strings this code
compares are ASCII).  Lean's own `String.toLower` is defined by well-founded
recursion and does not reduce at concrete inputs, so the embedding maps
`Char.toLower` over the character list instead. -/
def pyLower (s : String) : String := ⟨s.data.map Char.toLower⟩

/-- Structural model of Python's `str.startswith(prefix)`. -/
def pyStartsWith (s pre : String) : Bool := pre.data.isPrefixOf s.data

/-- The BMI formula `weight_kg / (height_cm/100)**2` used throughout the source. -/
def bmiOf (weight_kg height_cm : ℚ) : ℚ :=
  weight_kg / (height_cm / 100) ^ 2

/-- `calculate_asa_class`: ordered first-match-wins cascade.  Only the class
is embedded; the returned reason sentence is informational (never read by a
computation) and elided. -/
def calculate_asa_class (age : Int) (weight_kg height_cm : ℚ)
    (cardiovascular_disease heart_failure reactive_airway copd diabetes
     hypertension : Bool) (smoking_status alcohol_use : String) : Int :=
  let bmi := bmiOf weight_kg height_cm
  if heart_failure then 4
  else if copd ∨ (cardiovascular_disease ∧ (age > 70 ∨ diabetes)) ∨ bmi ≥ 40 ∨
      (diabetes ∧ (cardiovascular_disease ∨ bmi > 35)) then 3
  else if diabetes ∨ hypertension ∨ cardiovascular_disease ∨ reactive_airway ∨
      (30 ≤ bmi ∧ bmi < 40) ∨ smoking_status = "current" ∨ alcohol_use = "heavy" ∨
      age > 80 then 2
  else 1

/-- One contributing factor attached to a route during feasibility assessment. -/
structure RouteFactor where
  factor : String
  impact : String
  evidence : String
  deriving Repr, DecidableEq

/-- Feasibility assessment for both routes (`assess_route_feasibility` result). -/
structure RouteFeasibility where
  iv_feasible : Bool
  iv_factors : List RouteFactor
  inh_feasible : Bool
  inh_factors : List RouteFactor
  deriving Repr, DecidableEq

namespace RouteSelector

/-- `RouteSelector.assess_route_feasibility`: RYR1 variant makes inhalation
infeasible; the remaining rules only append preference factors. -/
def assess_route_feasibility (patient : PatientData) : RouteFeasibility :=
  let ryr1IvFactors : List RouteFactor :=
    if patient.ryr1_variant = "Variant" then
      [⟨"RYR1 Variant", "Mandates IV route", "MHAUS Guidelines 2023"⟩]
    else []
  let ryr1InhFactors : List RouteFactor :=
    if patient.ryr1_variant = "Variant" then
      [⟨"RYR1 Variant", "Absolute contraindication", "PMID:31386658 - MH susceptibility"⟩]
    else []
  let cvIvFactors : List RouteFactor :=
    if patient.cardiovascular_disease ∨ patient.heart_failure then
      [⟨"Cardiovascular disease", "Better hemodynamic control", "PMID:28248699 - IV titratable"⟩]
    else []
  let cvInhFactors : List RouteFactor :=
    if patient.cardiovascular_disease ∨ patient.heart_failure then
      [⟨"Cardiovascular disease", "Requires careful titration", "Clinical consideration"⟩]
    else []
  let asaIvFactors : List RouteFactor :=
    if patient.asa_class ≥ 4 then
      [⟨"ASA high", "Preferred for critical patients", "PMID:26378978 - ASA guidelines"⟩]
    else []
  let pedsInhFactors : List RouteFactor :=
    if patient.age < 12 then
      [⟨"Pediatric patient", "Often preferred in children", "PMID:30843482 - Pediatric practice"⟩]
    else []
  { iv_feasible := true
    iv_factors := ryr1IvFactors ++ cvIvFactors ++ asaIvFactors
    inh_feasible := ¬ (patient.ryr1_variant = "Variant")
    inh_factors := ryr1InhFactors ++ cvInhFactors ++ pedsInhFactors }

/-- Result of `RouteSelector.select_route` (the `evidence_base` and
`risk_factors` entries of the returned dict are never read by a later
computation and are elided). -/
structure RouteResult where
  chosen_route : String
  reason : String
  feasibility : RouteFeasibility
  deriving Repr, DecidableEq

/-- `RouteSelector.select_route`: contraindication checks first, then the
adult/pediatric preference cascade. -/
def select_route (patient : PatientData) : RouteResult :=
  let feas := assess_route_feasibility patient
  if ¬ (feas.inh_feasible = true) then
    ⟨"IV", "Inhalation contraindicated", feas⟩
  else if ¬ (feas.iv_feasible = true) then
    ⟨"Inhalation", "IV contraindicated", feas⟩
  else if patient.age ≥ 18 then
    if patient.asa_class ≥ 3 ∨ patient.cardiovascular_disease ∨ patient.heart_failure then
      if patient.asa_class ≥ 4 then
        ⟨"IV", "IV strongly preferred for ASA 4+ - critical patient requires precise control", feas⟩
      else if patient.heart_failure then
        ⟨"IV", "IV strongly preferred for heart failure - titratable hemodynamic control essential", feas⟩
      else if patient.cardiovascular_disease then
        ⟨"IV", "IV preferred for cardiovascular disease - better hemodynamic stability", feas⟩
      else
        ⟨"IV", "IV preferred for ASA 3 - better control for significant disease", feas⟩
    else
      ⟨"IV", "Standard adult practice", feas⟩
  else
    ⟨"Inhalation", "Pediatric preference", feas⟩

end RouteSelector

/-- Per-agent assessment record (uniform shape of the per-agent dicts built by
`assess_iv_agents` / `assess_volatile_agents`).  Advantage and disadvantage
records are represented by their factor names; their magnitude/citation
payloads are never read by a later computation and are elided.
`contraindication` is `""` and `evidence` is `[]` unless the source sets
them. -/
structure AgentAssessment where
  feasible : Bool
  advantages : List String
  disadvantages : List String
  contraindication : String
  evidence : List String
  deriving Repr, DecidableEq

/-- Python's `max(xs, key=k)` on a nonempty sequence: left fold that replaces
the running best only on a strictly greater key, so the FIRST maximiser wins.
Returns `none` on the empty sequence (where the source would not call it). -/
def pyMaxBy {α : Type} (key : α → Int) : List α → Option α
  | [] => none
  | x :: xs => some (xs.foldl (fun best y => if key best < key y then y else best) x)

namespace AgentSelector

def iv_agents : List String := ["Propofol", "Etomidate", "Ketamine"]

def volatile_agents : List String := ["Sevoflurane", "Desflurane", "Isoflurane"]

/-- `AgentSelector.assess_iv_agents`: per-agent feasibility plus
advantage/disadvantage records, in the fixed order Propofol, Etomidate,
Ketamine (ordered dict in the source). -/
def assess_iv_agents (p : PatientData) : List (String × AgentAssessment) :=
  let propofol : AgentAssessment :=
    { feasible := true
      advantages := ["Reduced PONV and smoother recovery vs volatiles"]
      disadvantages := if p.cardiovascular_disease ∨ p.asa_class ≥ 3 then ["Hypotension risk"] else []
      contraindication := ""
      evidence := [] }
  let etFeasible : Bool := ¬ (p.cardiovascular_disease ∧ p.asa_class ≥ 4)
  let etomidate : AgentAssessment :=
    { feasible := etFeasible
      advantages :=
        if etFeasible ∧ (p.cardiovascular_disease ∨ p.asa_class ≥ 3) then
          ["Hemodynamic stability"]
        else []
      disadvantages :=
        (if etFeasible ∧ (p.cardiovascular_disease ∧ p.diabetes) then
          ["Adrenal suppression in diabetic cardiovascular patients"]
        else []) ++ ["Adrenal suppression"]
      contraindication :=
        if ¬ (etFeasible = true) then
          "Adrenal suppression risk in critically ill cardiovascular patients"
        else ""
      evidence :=
        if ¬ (etFeasible = true) then
          ["PMID:22441015 – meta-analysis: adrenal suppression increases mortality in critically ill",
           "PMID:29368625 – review: avoid etomidate in sepsis/shock due to adrenal effects"]
        else [] }
  let kFeasible : Bool := ¬ (p.hypertension ∧ p.cardiovascular_disease)
  let ketamine : AgentAssessment :=
    { feasible := kFeasible
      advantages :=
        (if p.reactive_airway ∨ p.copd then ["Bronchodilation"] else []) ++
        (if ¬ (p.cardiovascular_disease = true) then ["Maintained or increased BP"] else [])
      disadvantages :=
        (if kFeasible ∧ (p.hypertension ∧ p.asa_class ≥ 4) then
          ["Hypertension in critically ill patients"]
        else []) ++
        (if p.cardiovascular_disease then ["Increased myocardial O₂ demand"] else [])
      contraindication :=
        if ¬ (kFeasible = true) then
          "Hypertension with cardiovascular disease - sympathomimetic effects increase cardiac risk"
        else ""
      evidence :=
        if ¬ (kFeasible = true) then
          ["PMID:26867833 – review: ketamine raises HR/BP; contraindicated in uncontrolled HTN",
           "PMID:23250431 – cardiovascular profile; avoid in CAD with HTN"]
        else [] }
  [("Propofol", propofol), ("Etomidate", etomidate), ("Ketamine", ketamine)]

/-- `AgentSelector.assess_volatile_agents`: RYR1 variant first (all three
volatiles infeasible), otherwise the per-agent rules. -/
def assess_volatile_agents (p : PatientData) : List (String × AgentAssessment) :=
  if p.ryr1_variant = "Variant" then
    volatile_agents.map (fun a =>
      (a, { feasible := false
            advantages := []
            disadvantages := []
            contraindication := "RYR1 pathogenic variant – absolute MH trigger with volatiles"
            evidence :=
              ["PMID:31386658 – review: RYR1 variants predispose to MH with volatile agents",
               "MHAUS Guidelines 2023 – volatiles are absolute MH triggers"] }))
  else
    let sevoflurane : AgentAssessment :=
      { feasible := true
        advantages := ["Low airway irritation"]
        disadvantages := []
        contraindication := ""
        evidence := [] }
    let desFeasible : Bool := ¬ (p.reactive_airway ∨ p.copd)
    let desflurane : AgentAssessment :=
      { feasible := desFeasible
        advantages := if desFeasible then ["Rapid emergence"] else []
        disadvantages := []
        contraindication :=
          if ¬ (desFeasible = true) then
            "High airway irritability; risk of cough/laryngospasm in reactive airway/COPD patients"
          else ""
        evidence :=
          if ¬ (desFeasible = true) then
            ["PMID:7818105 – study: ~34% incidence cough/laryngospasm during inhalation induction",
             "PMID:8659733 – higher airway reactivity vs sevoflurane"]
          else [] }
    let isoflurane : AgentAssessment :=
      { feasible := true
        advantages := []
        disadvantages := ["Pungent odor and airway irritation"]
        contraindication := ""
        evidence := [] }
    [("Sevoflurane", sevoflurane), ("Desflurane", desflurane), ("Isoflurane", isoflurane)]

/-- Score used by `select_agent`: number of advantages minus number of
disadvantages. -/
def scoreOf (x : String × AgentAssessment) : Int :=
  (x.2.advantages.length : Int) - (x.2.disadvantages.length : Int)

/-- Result of `AgentSelector.select_agent` (the `score` / `advantages` /
`disadvantages` echo fields of the returned dict are never read by a later
computation and are elided). -/
structure AgentResult where
  chosen_agent : Option String
  all_assessments : List (String × AgentAssessment)
  deriving Repr, DecidableEq

/-- `AgentSelector.select_agent`: filter to feasible agents and take Python's
`max` (first maximiser) of the advantage/disadvantage balance. -/
def select_agent (patient : PatientData) (route : String) : AgentResult :=
  let assessments :=
    if route = "IV" then assess_iv_agents patient else assess_volatile_agents patient
  let feasible := assessments.filter (fun x => x.2.feasible)
  match pyMaxBy scoreOf feasible with
  | none => ⟨none, assessments⟩
  | some x => ⟨some x.1, assessments⟩

end AgentSelector

/-- One entry of the `genetic_factors` breakdown returned by
`calculate_pk_adjustment` (citation strings elided). -/
structure GeneticFactor where
  gene : String
  phenotype : String
  pathway_weight : ℚ
  clearance_multiplier : ℚ
  deriving Repr, DecidableEq

/-- Return value of `DoseCalculator.calculate_pk_adjustment`. -/
structure PkAdjustment where
  adjustment_factor : ℚ
  genetic_factors : List GeneticFactor
  deriving Repr, DecidableEq

/-- Return value of `DoseCalculator.calculate_clinical_adjustments`; each
clinical factor is (label, multiplier), citation strings elided. -/
structure ClinicalAdjustment where
  adjustment_factor : ℚ
  clinical_factors : List (String × ℚ)
  deriving Repr, DecidableEq

namespace DoseCalculator

/-- `self.base_iv_doses` (mg/kg); only the three IV agents are ever looked
up (any other key would be a `KeyError` in the source, reached only after
the explicit unsupported-agent guard). -/
def base_iv_doses (agent : String) : ℚ :=
  if agent = "Propofol" then 2
  else if agent = "Etomidate" then 3/10
  else if agent = "Ketamine" then 2
  else 0

/-- Boer lean body weight (sex-specific linear combination). -/
def boer_lbw (kg cm : ℚ) (sex : String) : ℚ :=
  if pyStartsWith (pyLower sex) "m" then 407/1000 * kg + 267/1000 * cm - 192/10
  else 252/1000 * kg + 473/1000 * cm - 483/10

/-- Devine ideal body weight (sex-specific base + per-inch-over-five-feet). -/
def devine_ibw (cm : ℚ) (sex : String) : ℚ :=
  let inches_over_5ft := max 0 (cm / (254/100) - 60)
  (if pyStartsWith (pyLower sex) "m" then 50 else 455/10) + 23/10 * inches_over_5ft

/-- UGT1A9 clearance multiplier used inside `calculate_pk_adjustment`
(`dict.get` with default 1.0). -/
def ugt1a9_lookup (s : String) : ℚ :=
  if s = "decreased" then 17/20
  else if s = "normal" then 1
  else if s = "increased" then 23/20
  else 1

/-- CYP2B6 clearance multiplier in the propofol branch of
`calculate_pk_adjustment`. -/
def propofol_cyp2b6_lookup (s : String) : ℚ :=
  if s = "PM" then 4/5
  else if s = "IM" then 9/10
  else if s = "NM" then 1
  else if s = "RM" then 11/10
  else 1

/-- CYP3A4 clearance multiplier in the ketamine branch. -/
def cyp3a4_lookup (s : String) : ℚ :=
  if s = "PM" then 4/5
  else if s = "IM" then 9/10
  else if s = "NM" then 1
  else if s = "RM" then 11/10
  else 1

/-- CYP2B6 clearance multiplier in the ketamine branch. -/
def ketamine_cyp2b6_lookup (s : String) : ℚ :=
  if s = "PM" then 17/20
  else if s = "IM" then 93/100
  else if s = "NM" then 1
  else if s = "RM" then 11/10
  else 1

/-- `DoseCalculator.calculate_pk_adjustment`: weighted pathway clearances,
dose adjustment = 1 / total clearance; identity (factor 1, no genetic
factors) for any agent other than Propofol and Ketamine. -/
def calculate_pk_adjustment (agent : String) (p : PatientData) : PkAdjustment :=
  if agent = "Propofol" then
    let w_ugt1a9 : ℚ := 2/5
    let w_cyp_ox : ℚ := 1 - w_ugt1a9
    let ugt1a9_fx := ugt1a9_lookup p.ugt1a9
    let cyp2b6_fx := propofol_cyp2b6_lookup p.cyp2b6
    let total_cl := w_ugt1a9 * ugt1a9_fx + w_cyp_ox * cyp2b6_fx
    { adjustment_factor := 1 / total_cl
      genetic_factors :=
        [⟨"UGT1A9", p.ugt1a9, w_ugt1a9, ugt1a9_fx⟩,
         ⟨"CYP2B6", p.cyp2b6, w_cyp_ox, cyp2b6_fx⟩] }
  else if agent = "Ketamine" then
    let w_cyp3a4 : ℚ := 3/4
    let w_cyp2b6 : ℚ := 1/4
    let cyp3a4_fx := cyp3a4_lookup p.cyp3a4
    let cyp2b6_fx := ketamine_cyp2b6_lookup p.cyp2b6
    let total_cl := w_cyp3a4 * cyp3a4_fx + w_cyp2b6 * cyp2b6_fx
    { adjustment_factor := 1 / total_cl
      genetic_factors :=
        [⟨"CYP3A4", p.cyp3a4, w_cyp3a4, cyp3a4_fx⟩,
         ⟨"CYP2B6", p.cyp2b6, w_cyp2b6, cyp2b6_fx⟩] }
  else
    { adjustment_factor := 1, genetic_factors := [] }

/-- `DoseCalculator.calculate_clinical_adjustments`: multiplicative age /
cardiovascular / ASA factors (factor labels fixed; the source interpolates
the ASA class into the label, which no computation reads back). -/
def calculate_clinical_adjustments (agent : String) (p : PatientData) : ClinicalAdjustment :=
  let ageStep : ℚ × List (String × ℚ) :=
    if agent = "Propofol" ∨ agent = "Etomidate" ∨ agent = "Ketamine" then
      if p.age ≥ 75 then (13/20, [("Age ≥ 75", 13/20)])
      else if p.age ≥ 65 then (4/5, [("Age 65–74", 4/5)])
      else (1, [])
    else (1, [])
  let cvStep : ℚ × List (String × ℚ) :=
    if agent = "Propofol" ∧ (p.cardiovascular_disease ∨ p.heart_failure) then
      (4/5, [("Cardiovascular disease / heart failure", 4/5)])
    else (1, [])
  let asaStep : ℚ × List (String × ℚ) :=
    if p.asa_class ≥ 3 then
      if p.asa_class ≥ 4 then (3/4, [("ASA (Physical Status Classification)", 3/4)])
      else (17/20, [("ASA (Physical Status Classification)", 17/20)])
    else (1, [])
  { adjustment_factor := 1 * ageStep.1 * cvStep.1 * asaStep.1
    clinical_factors := ageStep.2 ++ cvStep.2 ++ asaStep.2 }

/-- Fixed per-agent label ceiling (mg/kg) set in the IV branch of
`calculate_dose`. -/
def label_ceiling (agent : String) : ℚ :=
  if agent = "Propofol" then 5/2
  else if agent = "Etomidate" then 3/5
  else if agent = "Ketamine" then 2
  else 0

/-- IV result of `DoseCalculator.calculate_dose` (exact values; the
`round(·, 1)` display rounding of the source and the free-text
`weight_scalar_used` / `ceiling_note` labels are presentation and elided). -/
structure IVDoseResult where
  agent : String
  bmi : ℚ
  dosing_weight_kg : ℚ
  base_dose_per_kg : ℚ
  base_dose_mg : ℚ
  pk_adjustment : PkAdjustment
  clinical_adjustment : ClinicalAdjustment
  total_adjustment : ℚ
  final_dose_mg : ℚ
  dose_mg_per_kg_on_scalar : ℚ
  safety_ceiling_mg : ℚ
  ceiling_adjustments : List String
  evidence : List String
  deriving Repr, DecidableEq

/-- Common tail of the IV branch of `calculate_dose` after the per-agent
dosing-weight / label-ceiling selection: base dose, PK and clinical
adjustments, the stacked dynamic ceiling reductions, and the final min. -/
def mkIvResult (agent : String) (p : PatientData) (dosing_weight label_ceiling_mg_per_kg : ℚ)
    (evidence : List String) : IVDoseResult :=
  let base_per_kg := base_iv_doses agent
  let base_dose_mg := base_per_kg * dosing_weight
  let pk_adj := calculate_pk_adjustment agent p
  let clin_adj := calculate_clinical_adjustments agent p
  let total_adj := pk_adj.adjustment_factor * clin_adj.adjustment_factor
  let adjusted_mg := base_dose_mg * total_adj
  let base_ceiling_mg := label_ceiling_mg_per_kg * dosing_weight
  let f1 : ℚ := if p.age ≥ 85 then 1 * (3/4) else if p.age ≥ 75 then 1 * (17/20) else 1
  let a1 : List String :=
    if p.age ≥ 85 then ["25% reduction for age ≥85"]
    else if p.age ≥ 75 then ["15% reduction for age ≥75"] else []
  let f2 : ℚ :=
    if p.heart_failure then f1 * (4/5)
    else if p.cardiovascular_disease ∧ p.asa_class ≥ 4 then f1 * (17/20) else f1
  let a2 : List String := a1 ++
    (if p.heart_failure then ["20% reduction for heart failure"]
     else if p.cardiovascular_disease ∧ p.asa_class ≥ 4 then ["15% reduction for critical CVD"]
     else [])
  let f3 : ℚ :=
    if p.asa_class ≥ 5 then f2 * (7/10)
    else if p.asa_class = 4 then f2 * (17/20) else f2
  let a3 : List String := a2 ++
    (if p.asa_class ≥ 5 then ["30% reduction for ASA 5"]
     else if p.asa_class = 4 then ["15% reduction for ASA 4"] else [])
  let dynamic_ceiling_mg := base_ceiling_mg * f3
  let final_mg := min adjusted_mg dynamic_ceiling_mg
  { agent := agent
    bmi := bmiOf p.weight_kg p.height_cm
    dosing_weight_kg := dosing_weight
    base_dose_per_kg := base_per_kg
    base_dose_mg := base_dose_mg
    pk_adjustment := pk_adj
    clinical_adjustment := clin_adj
    total_adjustment := total_adj
    final_dose_mg := final_mg
    dose_mg_per_kg_on_scalar := final_mg / dosing_weight
    safety_ceiling_mg := dynamic_ceiling_mg
    ceiling_adjustments := a3
    evidence := evidence }

/-- IV branch of `DoseCalculator.calculate_dose` (`route == "IV"`).  The
per-agent arm picks the dosing-weight scalar and label ceiling; an
unsupported agent raises `ValueError` in the source, embedded as `none`. -/
def calculate_dose_iv (agent : String) (p : PatientData) : Option IVDoseResult :=
  let TBW := p.weight_kg
  let BMI := bmiOf p.weight_kg p.height_cm
  let LBW := boer_lbw p.weight_kg p.height_cm p.gender
  let IBW := devine_ibw p.height_cm p.gender
  if agent = "Propofol" then
    some (mkIvResult "Propofol" p (if BMI ≥ 30 then LBW else TBW) (5/2)
      ["Scalar based on obesity dosing literature",
       "Ceiling: 2.5 mg/kg (accessdata.fda.gov (DIPRIVAN PI))"])
  else if agent = "Etomidate" then
    some (mkIvResult "Etomidate" p (if BMI < 40 then TBW else max IBW LBW) (3/5)
      ["Scalar based on obesity dosing literature",
       "Ceiling: 0.6 mg/kg (FDA Amidate label)"])
  else if agent = "Ketamine" then
    some (mkIvResult "Ketamine" p (if BMI ≥ 30 then IBW else TBW) 2
      ["Scalar based on obesity dosing literature",
       "Ceiling: 2.0 mg/kg (FDA Ketalar label; StatPearls)"])
  else none

end DoseCalculator

/-- GABRA1 EC50-multiplier table (`PD_GENETIC_EFFECTS["gabra1"]["variants"]`,
field `ec50_adjustment`); `none` models a missing-genotype lookup. -/
def gabra1_variants (s : String) : Option ℚ :=
  if s = "rs4263535:G/G" then some (17/20)
  else if s = "rs4263535:A/G" then some (93/100)
  else if s = "rs4263535:A/A" then some 1
  else none

namespace EmaxModel

/-- `EmaxModel.apply_pd_genetics`: for propofol (case-insensitive agent
match) the patient's GABRA1 genotype multiplier scales both EC50 values
(the source uses the same multiplier for both); any other agent, an empty
genotype string, or an unknown genotype leaves them unchanged.  The
returned notes are informational and elided. -/
def apply_pd_genetics (agent : String) (patient : PatientData)
    (ec50_hypnosis ec50_adverse : ℚ) : ℚ × ℚ :=
  if pyLower agent = "propofol" then
    if patient.gabra1 ≠ "" then
      match gabra1_variants patient.gabra1 with
      | some m => (ec50_hypnosis * m, ec50_adverse * m)
      | none => (ec50_hypnosis, ec50_adverse)
    else (ec50_hypnosis, ec50_adverse)
  else (ec50_hypnosis, ec50_adverse)

/-- Base hypnosis EC50 (mg/kg) hard-coded per agent inside
`calculate_response_probabilities` (with the generic fallback). -/
def base_ec50_hypnosis (agent : String) : ℚ :=
  if pyLower agent = "propofol" then 9/5
  else if pyLower agent = "ketamine" then 1
  else if pyLower agent = "etomidate" then 1/4
  else 1

/-- Base adverse-event EC50 (mg/kg) per agent. -/
def base_ec50_adverse (agent : String) : ℚ :=
  if pyLower agent = "propofol" then 23/10
  else if pyLower agent = "ketamine" then 14/5
  else if pyLower agent = "etomidate" then 2/5
  else 2

/-- Hill coefficient per agent. -/
def hill_coefficient (agent : String) : ℚ :=
  if pyLower agent = "propofol" then 5/2
  else if pyLower agent = "ketamine" then 2
  else if pyLower agent = "etomidate" then 3
  else 2

/-- Stacked vulnerability factor lowering the adverse-event EC50
(age / heart-failure-or-critical-CVD / ASA chains, same shape as the
dose-ceiling reductions). -/
def adverse_threshold_factor (p : PatientData) : ℚ :=
  let f1 : ℚ := if p.age ≥ 85 then 1 * (3/4) else if p.age ≥ 75 then 1 * (17/20) else 1
  let f2 : ℚ :=
    if p.heart_failure then f1 * (4/5)
    else if p.cardiovascular_disease ∧ p.asa_class ≥ 4 then f1 * (17/20) else f1
  if p.asa_class ≥ 5 then f2 * (7/10)
  else if p.asa_class = 4 then f2 * (17/20) else f2

/-- Per-agent evidence references of `calculate_response_probabilities`. -/
def evidence_refs (agent : String) : List String :=
  if pyLower agent = "propofol" then
    ["PMCID:PMC11101821", "PMID:8110547", "PMCID:PMC6343297", "PMCID:PMC1343509"]
  else if pyLower agent = "ketamine" then
    ["Heliyon 2024 dose–response LMA co-induction context",
     "Ketalar/clinical practice summaries"]
  else if pyLower agent = "etomidate" then
    ["NBK535364", "PMCID:PMC3108152", "PMCID:PMC8505283"]
  else []

/-- Computable core of the `calculate_response_probabilities` result: the
dose scaling, EC50 adjustments and citation references.  The two Hill
probabilities are real-valued (non-integral exponent) and are modelled by
the standalone `hill_prob` / `p_hypnosis` / `p_adverse` below. -/
structure RiskResult where
  agent : String
  dose_mg_per_kg : ℚ
  adjusted_ec50_hypnosis : ℚ
  adjusted_ec50_adverse : ℚ
  hill : ℚ
  refs : List String
  deriving Repr, DecidableEq

/-- `EmaxModel.calculate_response_probabilities` (computable part). -/
def calculate_response_probabilities (dose_mg weight_kg : ℚ) (agent : String)
    (p : PatientData) : RiskResult :=
  let dose_mg_per_kg := dose_mg / max weight_kg (1/1000000)
  let pair := apply_pd_genetics agent p (base_ec50_hypnosis agent) (base_ec50_adverse agent)
  { agent := agent
    dose_mg_per_kg := dose_mg_per_kg
    adjusted_ec50_hypnosis := pair.1
    adjusted_ec50_adverse := pair.2 * adverse_threshold_factor p
    hill := hill_coefficient agent
    refs := evidence_refs agent ++ ["PMID:26516798"] }

/-- The inner `hill_prob` helper: `P = d**n / (ec50**n + d**n)` with a real
(non-integral) exponent. -/
noncomputable def hill_prob (d ec50 n : ℝ) : ℝ :=
  d ^ n / (ec50 ^ n + d ^ n)

/-- `p_hypnosis`: Hill probability at the genetically adjusted hypnosis
EC50, clamped to at most 1. -/
noncomputable def p_hypnosis (r : RiskResult) : ℝ :=
  min (hill_prob (r.dose_mg_per_kg : ℝ) (r.adjusted_ec50_hypnosis : ℝ) (r.hill : ℝ)) 1

/-- `p_adverse`: Hill probability at the genetically and
vulnerability-adjusted adverse EC50, clamped to at most 1. -/
noncomputable def p_adverse (r : RiskResult) : ℝ :=
  min (hill_prob (r.dose_mg_per_kg : ℝ) (r.adjusted_ec50_adverse : ℝ) (r.hill : ℝ)) 1

/-- `therapeutic_index = p_hypnosis / max(p_adverse, 1e-6)`. -/
noncomputable def therapeutic_index (r : RiskResult) : ℝ :=
  p_hypnosis r / max (p_adverse r) (1/1000000)

end EmaxModel

/-- One flattened route contributing factor (`_extract_route_factors`; the
constant `category` field is elided). -/
structure RouteContribFactor where
  route : String
  factor : String
  impact : String
  evidence : String
  deriving Repr, DecidableEq

/-- One flattened agent contributing factor (`_extract_agent_factors`). -/
structure AgentContribFactor where
  agent : String
  feasible : Bool
  contraindication : String
  advantages : List String
  disadvantages : List String
  evidence : List String
  deriving Repr, DecidableEq

/-- One dose contributing factor (`_extract_dose_factors`): only the
evidence list is ever read downstream; the PK/clinical entries carry no
`evidence` key, hence `[]`. -/
structure DoseContribFactor where
  label : String
  evidence : List String
  deriving Repr, DecidableEq

/-- `AnesthesiaDecisionSupport._extract_route_factors`: flatten both routes'
factor lists (dict iteration order: IV then Inhalation). -/
def extract_route_factors (feas : RouteFeasibility) : List RouteContribFactor :=
  feas.iv_factors.map (fun f => ⟨"IV", f.factor, f.impact, f.evidence⟩)
  ++ feas.inh_factors.map (fun f => ⟨"Inhalation", f.factor, f.impact, f.evidence⟩)

/-- `AnesthesiaDecisionSupport._extract_agent_factors` (dict form): one
record per assessed agent, feasible or not. -/
def extract_agent_factors (assessments : List (String × AgentAssessment)) :
    List AgentContribFactor :=
  assessments.map (fun x =>
    ⟨x.1, x.2.feasible, x.2.contraindication, x.2.advantages, x.2.disadvantages, x.2.evidence⟩)

/-- `AnesthesiaDecisionSupport._extract_dose_factors`: base-dose record with
the dose evidence list, then PK and clinical records (no evidence key). -/
def extract_dose_factors (dose : DoseCalculator.IVDoseResult) : List DoseContribFactor :=
  [⟨"Base Dose", dose.evidence⟩, ⟨"PK Genetics", []⟩, ⟨"Clinical Adjustment", []⟩]

/-- `_compile_evidence_summary` result: the deduplicating Python `set` is a
`Finset` (its iteration order when emitted as a list is unspecified);
`total_evidence_sources = len(set)`.  The constant `evidence_grade` string
is elided. -/
structure EvidenceSummary where
  total_evidence_sources : ℕ
  sources : Finset String
  deriving DecidableEq

/-- `AnesthesiaDecisionSupport._compile_evidence_summary`: route factor
evidence strings (skipping falsy i.e. empty ones), agent factor evidence
lists, and dose factor evidence lists, deduplicated into one set.  The
`risk_prediction` section is not consulted. -/
def compile_evidence_summary (routeFactors : List RouteContribFactor)
    (agentFactors : List AgentContribFactor)
    (doseFactors : List DoseContribFactor) : EvidenceSummary :=
  let s :=
    (routeFactors.filterMap (fun f => if f.evidence ≠ "" then some f.evidence else none)).toFinset
    ∪ (agentFactors.flatMap (fun f => f.evidence)).toFinset
    ∪ (doseFactors.flatMap (fun f => f.evidence)).toFinset
  ⟨s.card, s⟩

/-- The assembled `Plan` (sections flattened; `patient_summary`,
`timestamp` and `evidence_based` are echo/metadata fields never read by a
later computation and are elided).  `dose_calculation` holds the IV dose
result; the inhalation (MAC) dose dict is not represented because the
generated route is provably always "IV" for validated patients (see the
C10 theorem) and no later computation reads it. -/
structure Plan where
  route_selection_chosen : String
  route_selection_reason : String
  route_contributing_factors : List RouteContribFactor
  agent_selection_chosen : Option String
  agent_contributing_factors : List AgentContribFactor
  dose_calculation : Option DoseCalculator.IVDoseResult
  dose_contributing_factors : List DoseContribFactor
  risk_prediction : Option EmaxModel.RiskResult
  evidence_summary : EvidenceSummary
  deriving DecidableEq

/-- `AnesthesiaDecisionSupport.generate_plan`: validate, then route → agent
→ dose → risk, then the evidence summary.  Validation failure returns the
error list (`{'status': 'error', 'errors': ...}` in the source). -/
def generate_plan (p : PatientData) : Except (List String) Plan :=
  if p.validate ≠ [] then .error p.validate
  else
    let route_result := RouteSelector.select_route p
    let routeFactors := extract_route_factors route_result.feasibility
    let agent_result := AgentSelector.select_agent p route_result.chosen_route
    let agentFactors := extract_agent_factors agent_result.all_assessments
    let dose_result : Option DoseCalculator.IVDoseResult :=
      match agent_result.chosen_agent with
      | none => none
      | some a =>
        if route_result.chosen_route = "IV" then DoseCalculator.calculate_dose_iv a p
        else none
    let doseFactors : List DoseContribFactor :=
      match dose_result with
      | none => []
      | some d => extract_dose_factors d
    let risk : Option EmaxModel.RiskResult :=
      match agent_result.chosen_agent, dose_result with
      | some a, some d =>
        if route_result.chosen_route = "IV" then
          some (EmaxModel.calculate_response_probabilities d.final_dose_mg p.weight_kg a p)
        else none
      | _, _ => none
    .ok
      { route_selection_chosen := route_result.chosen_route
        route_selection_reason := route_result.reason
        route_contributing_factors := routeFactors
        agent_selection_chosen := agent_result.chosen_agent
        agent_contributing_factors := agentFactors
        dose_calculation := dose_result
        dose_contributing_factors := doseFactors
        risk_prediction := risk
        evidence_summary := compile_evidence_summary routeFactors agentFactors doseFactors }

/-- Citation strings referenced by the stored contributing-factor entries of
the route, agent and dose sections of a plan (the spec-side reading of the
amended C9: what the evidence summary actually covers). -/
def citedBySections (plan : Plan) : Finset String :=
  (plan.route_contributing_factors.filterMap
      (fun f => if f.evidence ≠ "" then some f.evidence else none)).toFinset
  ∪ (plan.agent_contributing_factors.flatMap (fun f => f.evidence)).toFinset
  ∪ (plan.dose_contributing_factors.flatMap (fun f => f.evidence)).toFinset

/-- A concrete healthy reference patient (used by witnesses and scenario
claims; scenario variations override individual fields). -/
def basePatient : PatientData :=
  { age := 45, weight_kg := 70, height_cm := 170, gender := "M", asa_class := 1,
    cardiovascular_disease := false, heart_failure := false, reactive_airway := false,
    copd := false, diabetes := false, hypertension := false,
    smoking_status := "never", alcohol_use := "none", ryr1_variant := "Normal",
    cyp2b6 := "NM", ugt1a9 := "normal", cyp3a4 := "NM", cyp2c9 := "NM",
    gabra1 := "rs4263535:A/A", comt := "Val158Met:Val/Val", oprm1 := "A118G:A/A",
    cacna1c := "rs1006737:G/G", procedure_duration_min := 60,
    neuromonitoring := false }

theorem pyFold_first_max {α : Type} (key : α → Int) :
    ∀ (l : List α) (x : α),
      ∃ l1 m l2, x :: l = l1 ++ m :: l2
        ∧ l.foldl (fun best y => if key best < key y then y else best) x = m
        ∧ (∀ z ∈ l1, key z < key m) ∧ (∀ z ∈ l2, key z ≤ key m) := by
  intro l
  induction l with
  | nil =>
    intro x
    exact ⟨[], x, [], rfl, rfl, by simp, by simp⟩
  | cons y t ih =>
    intro x
    rw [List.foldl_cons]
    by_cases hk : key x < key y
    · obtain ⟨l1, m, l2, heq, hfold, h1, h2⟩ := ih y
      have hym : key y ≤ key m := by
        cases l1 with
        | nil =>
          simp only [List.nil_append, List.cons.injEq] at heq
          rw [heq.1]
        | cons a l1' =>
          simp only [List.cons_append, List.cons.injEq] at heq
          have ha := h1 a (by simp)
          rw [heq.1]
          exact le_of_lt ha
      refine ⟨x :: l1, m, l2, ?_, ?_, ?_, h2⟩
      · simpa using congrArg (x :: ·) heq
      · simpa [if_pos hk] using hfold
      · intro z hz
        rcases List.mem_cons.mp hz with rfl | hz
        · exact lt_of_lt_of_le hk hym
        · exact h1 z hz
    · obtain ⟨l1, m, l2, heq, hfold, h1, h2⟩ := ih x
      have hfold' : t.foldl (fun best y => if key best < key y then y else best)
          (if key x < key y then y else x) = m := by
        simpa [if_neg hk] using hfold
      cases l1 with
      | nil =>
        simp only [List.nil_append, List.cons.injEq] at heq
        refine ⟨[], x, y :: t, rfl, ?_, by simp, ?_⟩
        · rw [hfold', heq.1]
        · intro z hz
          rcases List.mem_cons.mp hz with rfl | hz
          · exact not_lt.mp hk
          · calc key z ≤ key m := h2 z (heq.2 ▸ hz)
              _ = key x := by rw [heq.1]
      | cons a l1' =>
        simp only [List.cons_append, List.cons.injEq] at heq
        have hxm : key x < key m := by
          have ha := h1 a (by simp)
          rw [heq.1]
          exact ha
        refine ⟨x :: y :: l1', m, l2, ?_, hfold', ?_, h2⟩
        · simp [heq.2]
        · intro z hz
          rcases List.mem_cons.mp hz with rfl | hz
          · exact hxm
          rcases List.mem_cons.mp hz with rfl | hz
          · exact lt_of_le_of_lt (not_lt.mp hk) hxm
          · exact h1 z (by simp [hz])

theorem pyMaxBy_nil_iff {α : Type} (key : α → Int) (l : List α) :
    pyMaxBy key l = none ↔ l = [] := by
  cases l <;> simp [pyMaxBy]

theorem pyMaxBy_first_max {α : Type} (key : α → Int) (l : List α) (hl : l ≠ []) :
    ∃ l1 m l2, l = l1 ++ m :: l2 ∧ pyMaxBy key l = some m
      ∧ (∀ z ∈ l1, key z < key m) ∧ (∀ z ∈ l2, key z ≤ key m) := by
  cases l with
  | nil => exact absurd rfl hl
  | cons x xs =>
    obtain ⟨l1, m, l2, heq, hfold, h1, h2⟩ := pyFold_first_max key xs x
    exact ⟨l1, m, l2, heq, by simp [pyMaxBy, hfold], h1, h2⟩

theorem pyMaxBy_mem {α : Type} (key : α → Int) (l : List α) (m : α)
    (h : pyMaxBy key l = some m) : m ∈ l := by
  rcases List.eq_nil_or_concat l with rfl | _
  · simp [pyMaxBy] at h
  · have hl : l ≠ [] := by rintro rfl; simp [pyMaxBy] at h
    obtain ⟨l1, m', l2, heq, hsome, _, _⟩ := pyMaxBy_first_max key l hl
    rw [h] at hsome
    cases hsome
    rw [heq]
    simp

theorem select_agent_assessments (p : PatientData) (route : String) :
    (AgentSelector.select_agent p route).all_assessments =
      (if route = "IV" then AgentSelector.assess_iv_agents p
       else AgentSelector.assess_volatile_agents p) := by
  cases hpm : pyMaxBy AgentSelector.scoreOf
      ((if route = "IV" then AgentSelector.assess_iv_agents p
        else AgentSelector.assess_volatile_agents p).filter (fun x => x.2.feasible)) with
  | none => simp [AgentSelector.select_agent, hpm]
  | some m => simp [AgentSelector.select_agent, hpm]

theorem select_agent_chosen (p : PatientData) (route : String) :
    (AgentSelector.select_agent p route).chosen_agent =
      (pyMaxBy AgentSelector.scoreOf
        ((if route = "IV" then AgentSelector.assess_iv_agents p
          else AgentSelector.assess_volatile_agents p).filter (fun x => x.2.feasible))).map
        Prod.fst := by
  cases hpm : pyMaxBy AgentSelector.scoreOf
      ((if route = "IV" then AgentSelector.assess_iv_agents p
        else AgentSelector.assess_volatile_agents p).filter (fun x => x.2.feasible)) with
  | none => simp [AgentSelector.select_agent, hpm]
  | some m => simp [AgentSelector.select_agent, hpm]

/-- C8: `select_agent` restricts to feasible agents, scores each as
advantages minus disadvantages, and returns the feasible agent with the
maximum score, ties broken in favor of the earlier agent in the fixed
candidate evaluation order (Propofol, Etomidate, Ketamine for IV;
Sevoflurane, Desflurane, Isoflurane for inhalation); with no feasible agent
the chosen agent is null. -/
theorem select_agent_first_max_in_fixed_order (p : PatientData) (route : String) :
    (AgentSelector.select_agent p route).all_assessments.map Prod.fst =
        (if route = "IV" then AgentSelector.iv_agents else AgentSelector.volatile_agents)
    ∧ ((AgentSelector.select_agent p route).all_assessments.filter (fun x => x.2.feasible) = []
        → (AgentSelector.select_agent p route).chosen_agent = none)
    ∧ ((AgentSelector.select_agent p route).all_assessments.filter (fun x => x.2.feasible) ≠ []
        → ∃ l1 m l2,
            (AgentSelector.select_agent p route).all_assessments.filter (fun x => x.2.feasible)
              = l1 ++ m :: l2
            ∧ (AgentSelector.select_agent p route).chosen_agent = some m.1
            ∧ (∀ z ∈ l1, AgentSelector.scoreOf z < AgentSelector.scoreOf m)
            ∧ (∀ z ∈ l2, AgentSelector.scoreOf z ≤ AgentSelector.scoreOf m)) := by
  refine ⟨?_, ?_, ?_⟩
  · rw [select_agent_assessments]
    by_cases hroute : route = "IV"
    · by_cases hryr : p.ryr1_variant = "Variant" <;>
        simp [hroute, AgentSelector.assess_iv_agents, AgentSelector.iv_agents]
    · by_cases hryr : p.ryr1_variant = "Variant" <;>
        simp [hroute, AgentSelector.assess_volatile_agents, AgentSelector.volatile_agents, hryr]
  · intro h
    rw [select_agent_assessments] at h
    rw [select_agent_chosen, (pyMaxBy_nil_iff AgentSelector.scoreOf _).mpr h]
    rfl
  · intro h
    rw [select_agent_assessments] at h
    obtain ⟨l1, m, l2, heq, hsome, h1, h2⟩ := pyMaxBy_first_max AgentSelector.scoreOf _ h
    refine ⟨l1, m, l2, ?_, ?_, h1, h2⟩
    · rw [select_agent_assessments]
      exact heq
    · rw [select_agent_chosen, hsome]
      rfl

/-- Witness for C8 at the concrete healthy patient on the IV route. -/
theorem select_agent_first_max_in_fixed_order_witness :
    (AgentSelector.select_agent basePatient "IV").all_assessments.map Prod.fst =
        (if "IV" = "IV" then AgentSelector.iv_agents else AgentSelector.volatile_agents)
    ∧ ((AgentSelector.select_agent basePatient "IV").all_assessments.filter
          (fun x => x.2.feasible) = []
        → (AgentSelector.select_agent basePatient "IV").chosen_agent = none)
    ∧ ((AgentSelector.select_agent basePatient "IV").all_assessments.filter
          (fun x => x.2.feasible) ≠ []
        → ∃ l1 m l2,
            (AgentSelector.select_agent basePatient "IV").all_assessments.filter
                (fun x => x.2.feasible)
              = l1 ++ m :: l2
            ∧ (AgentSelector.select_agent basePatient "IV").chosen_agent = some m.1
            ∧ (∀ z ∈ l1, AgentSelector.scoreOf z < AgentSelector.scoreOf m)
            ∧ (∀ z ∈ l2, AgentSelector.scoreOf z ≤ AgentSelector.scoreOf m)) :=
  select_agent_first_max_in_fixed_order basePatient "IV"

/-- C2: for every input, `calculate_asa_class` returns exactly one class in
{1,2,3,4,5} via a first-match-wins cascade, and whenever `heart_failure` is
true it returns class 4 regardless of every other field. -/
theorem asa_class_in_range_and_heart_failure_class4
    (age : Int) (weight_kg height_cm : ℚ)
    (cvd hf ra copd dm htn : Bool) (smoking alcohol : String) :
    calculate_asa_class age weight_kg height_cm cvd hf ra copd dm htn smoking alcohol
      ∈ ({1, 2, 3, 4, 5} : Set Int)
    ∧ (hf = true →
        calculate_asa_class age weight_kg height_cm cvd hf ra copd dm htn smoking alcohol = 4) := by
  constructor
  · simp only [calculate_asa_class]
    split_ifs <;> simp
  · intro h
    simp [calculate_asa_class, h]

/-- Witness for C2 at a concrete input (heart failure true). -/
theorem asa_class_in_range_and_heart_failure_class4_witness :
    calculate_asa_class 50 80 180 false true false false false false "never" "none"
      ∈ ({1, 2, 3, 4, 5} : Set Int)
    ∧ (true = true →
        calculate_asa_class 50 80 180 false true false false false false "never" "none" = 4) :=
  asa_class_in_range_and_heart_failure_class4 50 80 180 false true false false false false
    "never" "none"

/-- C3: for every patient with `ryr1_variant = "Variant"`, `select_route`
chooses the IV route with reason "Inhalation contraindicated",
unconditionally, regardless of all other fields. -/
theorem ryr1_variant_forces_iv_route (p : PatientData)
    (h : p.ryr1_variant = "Variant") :
    (RouteSelector.select_route p).chosen_route = "IV"
    ∧ (RouteSelector.select_route p).reason = "Inhalation contraindicated" := by
  simp [RouteSelector.select_route, RouteSelector.assess_route_feasibility, h]

/-- Witness for C3 at a concrete patient whose other fields all favor
inhalation (young, healthy). -/
theorem ryr1_variant_forces_iv_route_witness :
    (RouteSelector.select_route
      { age := 10, weight_kg := 40, height_cm := 140, gender := "F", asa_class := 1,
        cardiovascular_disease := false, heart_failure := false, reactive_airway := false,
        copd := false, diabetes := false, hypertension := false,
        smoking_status := "never", alcohol_use := "none", ryr1_variant := "Variant",
        cyp2b6 := "NM", ugt1a9 := "normal", cyp3a4 := "NM", cyp2c9 := "NM",
        gabra1 := "rs4263535:A/A", comt := "Val158Met:Val/Val", oprm1 := "A118G:A/A",
        cacna1c := "rs1006737:G/G", procedure_duration_min := 60,
        neuromonitoring := false }).chosen_route = "IV"
    ∧ (RouteSelector.select_route
      { age := 10, weight_kg := 40, height_cm := 140, gender := "F", asa_class := 1,
        cardiovascular_disease := false, heart_failure := false, reactive_airway := false,
        copd := false, diabetes := false, hypertension := false,
        smoking_status := "never", alcohol_use := "none", ryr1_variant := "Variant",
        cyp2b6 := "NM", ugt1a9 := "normal", cyp3a4 := "NM", cyp2c9 := "NM",
        gabra1 := "rs4263535:A/A", comt := "Val158Met:Val/Val", oprm1 := "A118G:A/A",
        cacna1c := "rs1006737:G/G", procedure_duration_min := 60,
        neuromonitoring := false }).reason = "Inhalation contraindicated" :=
  ryr1_variant_forces_iv_route _ rfl

/-- C1: for every patient and every IV agent, `calculate_dose` returns
`final_dose_mg = min(base_dose_mg * pk_adjustment * clinical_adjustment,
final_ceiling)`, where `base_dose_mg` is the per-agent base dose per kg
times the selected dosing weight, the final ceiling is the per-agent label
ceiling times the dosing weight times the product of the applicable
ceiling-reduction factors (age≥85 ×0.75 elif age≥75 ×0.85; heart failure
×0.80 elif CVD∧ASA≥4 ×0.85; ASA≥5 ×0.70 elif ASA=4 ×0.85), and the pk and
clinical factors of the returned breakdown recompute exactly that product. -/
theorem calculate_dose_final_min_formula (p : PatientData) (agent : String)
    (h : agent ∈ AgentSelector.iv_agents) :
    ∃ r, DoseCalculator.calculate_dose_iv agent p = some r
      ∧ r.base_dose_mg = DoseCalculator.base_iv_doses agent * r.dosing_weight_kg
      ∧ r.pk_adjustment = DoseCalculator.calculate_pk_adjustment agent p
      ∧ r.clinical_adjustment = DoseCalculator.calculate_clinical_adjustments agent p
      ∧ r.final_dose_mg =
          min (r.base_dose_mg * r.pk_adjustment.adjustment_factor
                * r.clinical_adjustment.adjustment_factor)
              (DoseCalculator.label_ceiling agent * r.dosing_weight_kg *
                ((if p.age ≥ 85 then (3/4 : ℚ) else if p.age ≥ 75 then 17/20 else 1)
                 * (if p.heart_failure then (4/5 : ℚ)
                    else if p.cardiovascular_disease ∧ p.asa_class ≥ 4 then 17/20 else 1)
                 * (if p.asa_class ≥ 5 then (7/10 : ℚ)
                    else if p.asa_class = 4 then 17/20 else 1))) := by
  simp only [AgentSelector.iv_agents, List.mem_cons, List.not_mem_nil, or_false] at h
  rcases h with rfl | rfl | rfl <;>
  · refine ⟨_, rfl, ?_, ?_, ?_, ?_⟩ <;>
      simp only [DoseCalculator.mkIvResult, DoseCalculator.label_ceiling] <;>
      norm_num <;>
      (try (congr 1 <;> split_ifs <;> ring))

/-- Witness for C1 at the concrete healthy patient with Propofol. -/
theorem calculate_dose_final_min_formula_witness :
    "Propofol" ∈ AgentSelector.iv_agents
    ∧ (∃ r, DoseCalculator.calculate_dose_iv "Propofol" basePatient = some r
      ∧ r.base_dose_mg = DoseCalculator.base_iv_doses "Propofol" * r.dosing_weight_kg
      ∧ r.pk_adjustment = DoseCalculator.calculate_pk_adjustment "Propofol" basePatient
      ∧ r.clinical_adjustment = DoseCalculator.calculate_clinical_adjustments "Propofol" basePatient
      ∧ r.final_dose_mg =
          min (r.base_dose_mg * r.pk_adjustment.adjustment_factor
                * r.clinical_adjustment.adjustment_factor)
              (DoseCalculator.label_ceiling "Propofol" * r.dosing_weight_kg *
                ((if basePatient.age ≥ 85 then (3/4 : ℚ)
                  else if basePatient.age ≥ 75 then 17/20 else 1)
                 * (if basePatient.heart_failure then (4/5 : ℚ)
                    else if basePatient.cardiovascular_disease ∧ basePatient.asa_class ≥ 4
                      then 17/20 else 1)
                 * (if basePatient.asa_class ≥ 5 then (7/10 : ℚ)
                    else if basePatient.asa_class = 4 then 17/20 else 1)))) :=
  ⟨by simp [AgentSelector.iv_agents],
   calculate_dose_final_min_formula basePatient "Propofol" (by simp [AgentSelector.iv_agents])⟩

/-- C4 counterexample: at the scenario patient (Propofol, 70 kg, 170 cm,
NM/normal PK genetics, ASA 1, no cardiovascular disease) with age 80, the
code's age≥75 clinical band multiplies by 0.65 (not 0.80) and the final
dose is 91.0 mg (not the claimed 112.0 mg). -/
theorem scenario_age80_values_counterexample :
    ∃ r, DoseCalculator.calculate_dose_iv "Propofol" { basePatient with age := 80 } = some r
      ∧ r.clinical_adjustment.adjustment_factor = 13/20
      ∧ r.final_dose_mg = 91
      ∧ ¬ (r.final_dose_mg = 112) := by
  refine ⟨_, rfl, ?_, ?_, ?_⟩ <;>
    (simp only [DoseCalculator.mkIvResult, DoseCalculator.calculate_pk_adjustment,
      DoseCalculator.calculate_clinical_adjustments, DoseCalculator.base_iv_doses,
      DoseCalculator.ugt1a9_lookup, DoseCalculator.propofol_cyp2b6_lookup,
      bmiOf, basePatient];
     simp;
     try norm_num [inf_eq_min, min_def])

/-- C4 amended: for the scenario patient with age 80, the clinical
adjustment is ×0.65 from the age≥75 band, the adjusted dose is 91.0 mg, the
ceiling is 148.75 mg (175.0 × 0.85 for age≥75), and final_dose_mg = 91.0 mg
(unconstrained by the ceiling). -/
theorem scenario_age80_amended_values :
    ∃ r, DoseCalculator.calculate_dose_iv "Propofol" { basePatient with age := 80 } = some r
      ∧ r.pk_adjustment.adjustment_factor = 1
      ∧ r.clinical_adjustment.adjustment_factor = 13/20
      ∧ r.base_dose_mg = 140
      ∧ r.base_dose_mg * r.total_adjustment = 91
      ∧ r.safety_ceiling_mg = 595/4
      ∧ r.final_dose_mg = 91 := by
  refine ⟨_, rfl, ?_, ?_, ?_, ?_, ?_, ?_⟩ <;>
    (simp only [DoseCalculator.mkIvResult, DoseCalculator.calculate_pk_adjustment,
      DoseCalculator.calculate_clinical_adjustments, DoseCalculator.base_iv_doses,
      DoseCalculator.ugt1a9_lookup, DoseCalculator.propofol_cyp2b6_lookup,
      bmiOf, basePatient];
     simp;
     try norm_num [inf_eq_min, min_def])

theorem ugt1a9_lookup_pos (s : String) : 0 < DoseCalculator.ugt1a9_lookup s := by
  unfold DoseCalculator.ugt1a9_lookup
  split_ifs <;> norm_num

theorem propofol_cyp2b6_lookup_pos (s : String) : 0 < DoseCalculator.propofol_cyp2b6_lookup s := by
  unfold DoseCalculator.propofol_cyp2b6_lookup
  split_ifs <;> norm_num

theorem cyp3a4_lookup_pos (s : String) : 0 < DoseCalculator.cyp3a4_lookup s := by
  unfold DoseCalculator.cyp3a4_lookup
  split_ifs <;> norm_num

theorem ketamine_cyp2b6_lookup_pos (s : String) : 0 < DoseCalculator.ketamine_cyp2b6_lookup s := by
  unfold DoseCalculator.ketamine_cyp2b6_lookup
  split_ifs <;> norm_num

theorem inv_clearance_strict_anti_left {w1 w2 a a' b : ℚ} (hw1 : 0 < w1) (hw2 : 0 < w2)
    (ha : 0 < a) (hb : 0 < b) (h : a < a') :
    (w1 * a' + w2 * b)⁻¹ < (w1 * a + w2 * b)⁻¹ := by
  have hpos : 0 < w1 * a + w2 * b := by positivity
  have hlt : w1 * a + w2 * b < w1 * a' + w2 * b := by nlinarith
  exact inv_lt_inv_of_lt hpos hlt

theorem inv_clearance_strict_anti_right {w1 w2 a b b' : ℚ} (hw1 : 0 < w1) (hw2 : 0 < w2)
    (ha : 0 < a) (hb : 0 < b) (h : b < b') :
    (w1 * a + w2 * b')⁻¹ < (w1 * a + w2 * b)⁻¹ := by
  have hpos : 0 < w1 * a + w2 * b := by positivity
  have hlt : w1 * a + w2 * b < w1 * a + w2 * b' := by nlinarith
  exact inv_lt_inv_of_lt hpos hlt

/-- C5: for Propofol the PK adjustment factor is
`1 / (0.40 × m_ugt1a9 + 0.60 × m_cyp2b6)` and for Ketamine it is
`1 / (0.75 × m_cyp3a4 + 0.25 × m_cyp2b6)` over the fixed per-phenotype
clearance multipliers, and the factor is strictly decreasing in each
clearance multiplier (a lower clearance multiplier gives a strictly larger
dose adjustment). -/
theorem pk_adjustment_inverse_clearance_monotone (p : PatientData) :
    (DoseCalculator.calculate_pk_adjustment "Propofol" p).adjustment_factor
      = 1 / (2/5 * DoseCalculator.ugt1a9_lookup p.ugt1a9
             + 3/5 * DoseCalculator.propofol_cyp2b6_lookup p.cyp2b6)
    ∧ (DoseCalculator.calculate_pk_adjustment "Ketamine" p).adjustment_factor
      = 1 / (3/4 * DoseCalculator.cyp3a4_lookup p.cyp3a4
             + 1/4 * DoseCalculator.ketamine_cyp2b6_lookup p.cyp2b6)
    ∧ (∀ u u' : String,
        DoseCalculator.ugt1a9_lookup u < DoseCalculator.ugt1a9_lookup u' →
        (DoseCalculator.calculate_pk_adjustment "Propofol"
            { p with ugt1a9 := u' }).adjustment_factor
          < (DoseCalculator.calculate_pk_adjustment "Propofol"
            { p with ugt1a9 := u }).adjustment_factor)
    ∧ (∀ c c' : String,
        DoseCalculator.propofol_cyp2b6_lookup c < DoseCalculator.propofol_cyp2b6_lookup c' →
        (DoseCalculator.calculate_pk_adjustment "Propofol"
            { p with cyp2b6 := c' }).adjustment_factor
          < (DoseCalculator.calculate_pk_adjustment "Propofol"
            { p with cyp2b6 := c }).adjustment_factor)
    ∧ (∀ a a' : String,
        DoseCalculator.cyp3a4_lookup a < DoseCalculator.cyp3a4_lookup a' →
        (DoseCalculator.calculate_pk_adjustment "Ketamine"
            { p with cyp3a4 := a' }).adjustment_factor
          < (DoseCalculator.calculate_pk_adjustment "Ketamine"
            { p with cyp3a4 := a }).adjustment_factor)
    ∧ (∀ c c' : String,
        DoseCalculator.ketamine_cyp2b6_lookup c < DoseCalculator.ketamine_cyp2b6_lookup c' →
        (DoseCalculator.calculate_pk_adjustment "Ketamine"
            { p with cyp2b6 := c' }).adjustment_factor
          < (DoseCalculator.calculate_pk_adjustment "Ketamine"
            { p with cyp2b6 := c }).adjustment_factor) := by
  refine ⟨?_, ?_, ?_, ?_, ?_, ?_⟩
  · simp [DoseCalculator.calculate_pk_adjustment]
    norm_num
  · simp [DoseCalculator.calculate_pk_adjustment]
  · intro u u' h
    simp only [DoseCalculator.calculate_pk_adjustment]
    simp only [one_div]
    simp
    exact inv_clearance_strict_anti_left (by norm_num) (by norm_num)
      (ugt1a9_lookup_pos u) (propofol_cyp2b6_lookup_pos p.cyp2b6) h
  · intro c c' h
    simp only [DoseCalculator.calculate_pk_adjustment]
    simp only [one_div]
    simp
    exact inv_clearance_strict_anti_right (by norm_num) (by norm_num)
      (ugt1a9_lookup_pos p.ugt1a9) (propofol_cyp2b6_lookup_pos c) h
  · intro a a' h
    simp only [DoseCalculator.calculate_pk_adjustment]
    simp only [one_div]
    simp
    exact inv_clearance_strict_anti_left (by norm_num) (by norm_num)
      (cyp3a4_lookup_pos a) (ketamine_cyp2b6_lookup_pos p.cyp2b6) h
  · intro c c' h
    simp only [DoseCalculator.calculate_pk_adjustment]
    simp only [one_div]
    simp
    exact inv_clearance_strict_anti_right (by norm_num) (by norm_num)
      (cyp3a4_lookup_pos p.cyp3a4) (ketamine_cyp2b6_lookup_pos c) h

/-- Witness for C5 at the concrete healthy patient, instantiating each
monotonicity direction at a concrete lower/higher phenotype pair. -/
theorem pk_adjustment_inverse_clearance_monotone_witness :
    ((DoseCalculator.calculate_pk_adjustment "Propofol" basePatient).adjustment_factor
      = 1 / (2/5 * DoseCalculator.ugt1a9_lookup basePatient.ugt1a9
             + 3/5 * DoseCalculator.propofol_cyp2b6_lookup basePatient.cyp2b6))
    ∧ ((DoseCalculator.calculate_pk_adjustment "Ketamine" basePatient).adjustment_factor
      = 1 / (3/4 * DoseCalculator.cyp3a4_lookup basePatient.cyp3a4
             + 1/4 * DoseCalculator.ketamine_cyp2b6_lookup basePatient.cyp2b6))
    ∧ (DoseCalculator.ugt1a9_lookup "decreased" < DoseCalculator.ugt1a9_lookup "normal"
       ∧ (DoseCalculator.calculate_pk_adjustment "Propofol"
            { basePatient with ugt1a9 := "normal" }).adjustment_factor
          < (DoseCalculator.calculate_pk_adjustment "Propofol"
            { basePatient with ugt1a9 := "decreased" }).adjustment_factor)
    ∧ (DoseCalculator.propofol_cyp2b6_lookup "PM" < DoseCalculator.propofol_cyp2b6_lookup "NM"
       ∧ (DoseCalculator.calculate_pk_adjustment "Propofol"
            { basePatient with cyp2b6 := "NM" }).adjustment_factor
          < (DoseCalculator.calculate_pk_adjustment "Propofol"
            { basePatient with cyp2b6 := "PM" }).adjustment_factor)
    ∧ (DoseCalculator.cyp3a4_lookup "PM" < DoseCalculator.cyp3a4_lookup "NM"
       ∧ (DoseCalculator.calculate_pk_adjustment "Ketamine"
            { basePatient with cyp3a4 := "NM" }).adjustment_factor
          < (DoseCalculator.calculate_pk_adjustment "Ketamine"
            { basePatient with cyp3a4 := "PM" }).adjustment_factor)
    ∧ (DoseCalculator.ketamine_cyp2b6_lookup "PM" < DoseCalculator.ketamine_cyp2b6_lookup "NM"
       ∧ (DoseCalculator.calculate_pk_adjustment "Ketamine"
            { basePatient with cyp2b6 := "NM" }).adjustment_factor
          < (DoseCalculator.calculate_pk_adjustment "Ketamine"
            { basePatient with cyp2b6 := "PM" }).adjustment_factor) :=
  ⟨(pk_adjustment_inverse_clearance_monotone basePatient).1,
   (pk_adjustment_inverse_clearance_monotone basePatient).2.1,
   ⟨(by simp [DoseCalculator.ugt1a9_lookup]; norm_num),
    (pk_adjustment_inverse_clearance_monotone basePatient).2.2.1 "decreased" "normal"
      (by simp [DoseCalculator.ugt1a9_lookup]; norm_num)⟩,
   ⟨(by simp [DoseCalculator.propofol_cyp2b6_lookup]; norm_num),
    (pk_adjustment_inverse_clearance_monotone basePatient).2.2.2.1 "PM" "NM"
      (by simp [DoseCalculator.propofol_cyp2b6_lookup]; norm_num)⟩,
   ⟨(by simp [DoseCalculator.cyp3a4_lookup]; norm_num),
    (pk_adjustment_inverse_clearance_monotone basePatient).2.2.2.2.1 "PM" "NM"
      (by simp [DoseCalculator.cyp3a4_lookup]; norm_num)⟩,
   ⟨(by simp [DoseCalculator.ketamine_cyp2b6_lookup]; norm_num),
    (pk_adjustment_inverse_clearance_monotone basePatient).2.2.2.2.2 "PM" "NM"
      (by simp [DoseCalculator.ketamine_cyp2b6_lookup]; norm_num)⟩⟩

/-- C6: for every dose d ≥ 0, EC50 > 0 and Hill exponent n > 0, the Hill
probability `d^n / (EC50^n + d^n)` computed by the model lies in [0,1], and
for fixed EC50 and n it is monotonically non-decreasing in the dose. -/
theorem hill_prob_bounds_and_monotone (d d2 ec50 n : ℝ)
    (hd : 0 ≤ d) (hec : 0 < ec50) (hn : 0 < n) :
    0 ≤ EmaxModel.hill_prob d ec50 n ∧ EmaxModel.hill_prob d ec50 n ≤ 1
    ∧ (d ≤ d2 → EmaxModel.hill_prob d ec50 n ≤ EmaxModel.hill_prob d2 ec50 n) := by
  have hdn : (0:ℝ) ≤ d ^ n := Real.rpow_nonneg hd n
  have hen : (0:ℝ) < ec50 ^ n := Real.rpow_pos_of_pos hec n
  have hden : (0:ℝ) < ec50 ^ n + d ^ n := by linarith
  refine ⟨div_nonneg hdn hden.le, (div_le_one hden).mpr (by linarith), ?_⟩
  intro h
  have hd2 : (0:ℝ) ≤ d2 := le_trans hd h
  have hdn2 : (0:ℝ) ≤ d2 ^ n := Real.rpow_nonneg hd2 n
  have hmon : d ^ n ≤ d2 ^ n := Real.rpow_le_rpow hd h hn.le
  have hden2 : (0:ℝ) < ec50 ^ n + d2 ^ n := by linarith
  unfold EmaxModel.hill_prob
  rw [div_le_div_iff hden hden2]
  nlinarith [mul_le_mul_of_nonneg_right hmon hen.le]

/-- Witness for C6 at d = 1, d2 = 3, EC50 = 1, n = 2. -/
theorem hill_prob_bounds_and_monotone_witness :
    ((0:ℝ) ≤ 1 ∧ (0:ℝ) < 1 ∧ (0:ℝ) < 2)
    ∧ (0 ≤ EmaxModel.hill_prob 1 1 2 ∧ EmaxModel.hill_prob 1 1 2 ≤ 1
       ∧ ((1:ℝ) ≤ 3 → EmaxModel.hill_prob 1 1 2 ≤ EmaxModel.hill_prob 3 1 2)) :=
  ⟨⟨zero_le_one, zero_lt_one, by norm_num⟩,
   hill_prob_bounds_and_monotone 1 3 1 2 zero_le_one zero_lt_one (by norm_num)⟩

/-- C7: PD genetic modulation applies only for Propofol: both EC50 values
are multiplied by the same fixed multiplier for the patient's GABRA1
genotype (homozygous variant 0.85 < heterozygous 0.93 < homozygous
reference 1.0); every other agent is left unchanged, and the result depends
on the patient only through the GABRA1 field, so the COMT, OPRM1 and
CACNA1C genotypes never alter any EC50. -/
theorem apply_pd_genetics_gabra1_propofol_only (p q : PatientData) (ech eca : ℚ) :
    (∀ g : String, g ∈ ["rs4263535:G/G", "rs4263535:A/G", "rs4263535:A/A"] →
      ∃ m, gabra1_variants g = some m
        ∧ EmaxModel.apply_pd_genetics "Propofol" { p with gabra1 := g } ech eca
            = (ech * m, eca * m))
    ∧ (gabra1_variants "rs4263535:G/G" = some (17/20)
       ∧ gabra1_variants "rs4263535:A/G" = some (93/100)
       ∧ gabra1_variants "rs4263535:A/A" = some 1
       ∧ (17:ℚ)/20 < 93/100 ∧ (93:ℚ)/100 < 1)
    ∧ (∀ agent : String, pyLower agent ≠ "propofol" →
        EmaxModel.apply_pd_genetics agent p ech eca = (ech, eca))
    ∧ (q.gabra1 = p.gabra1 → ∀ agent : String,
        EmaxModel.apply_pd_genetics agent q ech eca
          = EmaxModel.apply_pd_genetics agent p ech eca) := by
  have hprop : pyLower "Propofol" = "propofol" := rfl
  refine ⟨?_, ⟨rfl, rfl, rfl, by norm_num, by norm_num⟩, ?_, ?_⟩
  · intro g hg
    simp only [List.mem_cons, List.not_mem_nil, or_false] at hg
    rcases hg with rfl | rfl | rfl <;>
      exact ⟨_, rfl, by simp [EmaxModel.apply_pd_genetics, gabra1_variants, hprop]⟩
  · intro agent hagent
    simp [EmaxModel.apply_pd_genetics, hagent]
  · intro h agent
    simp only [EmaxModel.apply_pd_genetics, h]

/-- Witness for C7 at two concrete patients sharing GABRA1 (homozygous
variant) but differing in COMT, OPRM1 and CACNA1C. -/
theorem apply_pd_genetics_gabra1_propofol_only_witness :
    ("rs4263535:G/G" ∈ ["rs4263535:G/G", "rs4263535:A/G", "rs4263535:A/A"]
      ∧ ∃ m, gabra1_variants "rs4263535:G/G" = some m
        ∧ EmaxModel.apply_pd_genetics "Propofol"
            { basePatient with gabra1 := "rs4263535:G/G" } (9/5) (23/10)
            = ((9:ℚ)/5 * m, (23:ℚ)/10 * m))
    ∧ (pyLower "Ketamine" ≠ "propofol"
      ∧ EmaxModel.apply_pd_genetics "Ketamine" basePatient (9/5) (23/10) = (9/5, 23/10))
    ∧ (({ basePatient with
            comt := "Val158Met:Met/Met"
            oprm1 := "A118G:G/G"
            cacna1c := "rs1006737:A/A" } : PatientData).gabra1 = basePatient.gabra1
      ∧ EmaxModel.apply_pd_genetics "Propofol"
          { basePatient with
            comt := "Val158Met:Met/Met"
            oprm1 := "A118G:G/G"
            cacna1c := "rs1006737:A/A" } (9/5) (23/10)
        = EmaxModel.apply_pd_genetics "Propofol" basePatient (9/5) (23/10)) :=
  ⟨⟨by simp,
    (apply_pd_genetics_gabra1_propofol_only basePatient basePatient (9/5) (23/10)).1
      "rs4263535:G/G" (by simp)⟩,
   ⟨by decide,
    (apply_pd_genetics_gabra1_propofol_only basePatient basePatient (9/5) (23/10)).2.2.1
      "Ketamine" (by decide)⟩,
   ⟨rfl,
    (apply_pd_genetics_gabra1_propofol_only basePatient
        { basePatient with
          comt := "Val158Met:Met/Met"
          oprm1 := "A118G:G/G"
          cacna1c := "rs1006737:A/A" } (9/5) (23/10)).2.2.2 rfl "Propofol"⟩⟩

theorem validate_nil_age {p : PatientData} (h : p.validate = []) :
    18 ≤ p.age ∧ p.age ≤ 95 := by
  by_contra hc
  unfold PatientData.validate at h
  rw [if_neg hc] at h
  simp at h

theorem select_route_adult_iv (p : PatientData) (h : (18:ℤ) ≤ p.age) :
    (RouteSelector.select_route p).chosen_route = "IV" := by
  have hage : p.age ≥ 18 := h
  by_cases hryr : p.ryr1_variant = "Variant"
  · simp [RouteSelector.select_route, RouteSelector.assess_route_feasibility, hryr]
  · simp only [RouteSelector.select_route, RouteSelector.assess_route_feasibility, hryr]
    simp [hage]
    split_ifs <;> rfl

theorem assess_iv_filter_ne_nil (p : PatientData) :
    (AgentSelector.assess_iv_agents p).filter (fun x => x.2.feasible) ≠ [] := by
  intro h
  simp only [AgentSelector.assess_iv_agents, List.filter_cons] at h
  simp at h

theorem select_agent_iv_chosen_mem (p : PatientData) :
    ∃ a, (AgentSelector.select_agent p "IV").chosen_agent = some a
      ∧ a ∈ AgentSelector.iv_agents := by
  have hchosen := select_agent_chosen p "IV"
  rw [if_pos rfl] at hchosen
  cases hpm : pyMaxBy AgentSelector.scoreOf
      ((AgentSelector.assess_iv_agents p).filter (fun x => x.2.feasible)) with
  | none => exact absurd ((pyMaxBy_nil_iff _ _).mp hpm) (assess_iv_filter_ne_nil p)
  | some m =>
    refine ⟨m.1, by rw [hchosen, hpm]; rfl, ?_⟩
    have hmem : m ∈ AgentSelector.assess_iv_agents p :=
      List.mem_of_mem_filter (pyMaxBy_mem _ _ _ hpm)
    have hmap : m.1 ∈ (AgentSelector.assess_iv_agents p).map Prod.fst :=
      List.mem_map_of_mem _ hmem
    simpa [AgentSelector.assess_iv_agents, AgentSelector.iv_agents] using hmap

theorem calculate_dose_iv_isSome (p : PatientData) (a : String)
    (h : a ∈ AgentSelector.iv_agents) :
    (DoseCalculator.calculate_dose_iv a p).isSome := by
  simp only [AgentSelector.iv_agents, List.mem_cons, List.not_mem_nil, or_false] at h
  rcases h with rfl | rfl | rfl <;> rfl

/-- C10: for every patient that passes validation, the generated plan
chooses the IV route, always has a chosen agent (Propofol is always
feasible), and therefore always carries populated dose_calculation and
risk_prediction sections. -/
theorem generate_plan_valid_iv_dose_risk (p : PatientData) (h : p.validate = []) :
    ∃ plan, generate_plan p = .ok plan
      ∧ plan.route_selection_chosen = "IV"
      ∧ plan.agent_selection_chosen.isSome
      ∧ plan.dose_calculation.isSome
      ∧ plan.risk_prediction.isSome := by
  have hage := (validate_nil_age h).1
  have hroute : (RouteSelector.select_route p).chosen_route = "IV" :=
    select_route_adult_iv p hage
  obtain ⟨a, ha, hmem⟩ := select_agent_iv_chosen_mem p
  have hdose := calculate_dose_iv_isSome p a hmem
  obtain ⟨d, hd⟩ := Option.isSome_iff_exists.mp hdose
  simp only [generate_plan, h, ne_eq, not_true_eq_false, if_false]
  refine ⟨_, rfl, hroute, ?_, ?_, ?_⟩
  · rw [hroute, ha]
    rfl
  · rw [hroute, ha]
    simp [hd]
  · rw [hroute, ha]
    simp [hd]

/-- Witness for C10 at the concrete healthy patient. -/
theorem generate_plan_valid_iv_dose_risk_witness :
    basePatient.validate = []
    ∧ (∃ plan, generate_plan basePatient = .ok plan
      ∧ plan.route_selection_chosen = "IV"
      ∧ plan.agent_selection_chosen.isSome
      ∧ plan.dose_calculation.isSome
      ∧ plan.risk_prediction.isSome) :=
  ⟨rfl, generate_plan_valid_iv_dose_risk basePatient rfl⟩

/-- C9 counterexample: for the concrete healthy patient the generated plan's
risk_prediction section carries citation "PMID:26516798", yet that citation
is absent from evidence_summary.sources, so the summary does not contain
every citation referenced by every populated section. -/
theorem evidence_summary_misses_risk_citation :
    ∃ plan r, generate_plan basePatient = .ok plan
      ∧ plan.risk_prediction = some r
      ∧ "PMID:26516798" ∈ r.refs
      ∧ "PMID:26516798" ∉ plan.evidence_summary.sources := by
  refine ⟨_, _, rfl, rfl, ?_, ?_⟩
  · simp [EmaxModel.calculate_response_probabilities, EmaxModel.evidence_refs]
  · decide

/-- C9 amended: for every successfully generated plan, evidence_summary
contains exactly the deduplicated set of citation strings referenced by the
contributing factors of the route_selection, agent_selection and
dose_calculation sections (risk_prediction citations are not collected),
and total_evidence_sources equals the size of that set. -/
theorem evidence_summary_route_agent_dose_exact (p : PatientData) (plan : Plan)
    (h : generate_plan p = .ok plan) :
    plan.evidence_summary.sources = citedBySections plan
    ∧ plan.evidence_summary.total_evidence_sources = (citedBySections plan).card := by
  unfold generate_plan at h
  by_cases hv : p.validate = []
  · rw [if_neg (by simp [hv])] at h
    rw [Except.ok.injEq] at h
    subst h
    exact ⟨rfl, rfl⟩
  · rw [if_pos hv] at h
    cases h

/-- Witness for C9's amended theorem at the concrete healthy patient. -/
theorem evidence_summary_route_agent_dose_exact_witness :
    ∃ plan, generate_plan basePatient = .ok plan
      ∧ plan.evidence_summary.sources = citedBySections plan
      ∧ plan.evidence_summary.total_evidence_sources = (citedBySections plan).card :=
  ⟨_, rfl, evidence_summary_route_agent_dose_exact basePatient _ rfl⟩
